import Mathlib

/-!
Shallow embedding of the booking lifecycle and date-availability engine of the
property-listing backend: the Booking/Property/Review data model, the
availability check (`Property.isAvailableForDates`,
`Booking.isDateRangeAvailable`), and the booking/review controller handlers
(`createBooking`, `updateBooking`, `cancelBooking`, `checkIn`, `checkOut`,
`uploadPaymentProof`, `verifyPayment`, `addReview`, `deleteReview`,
`calculateAverageRating`).

Times are modelled as milliseconds since the epoch (`Int`), matching the
numeric arithmetic JavaScript performs on `Date` values.  Database
collections are modelled as lists; Mongo query filters become boolean
predicates over list elements; request handlers become pure functions
returning a success value or an error (HTTP code and message).
-/

namespace PropertyApi

/-- Milliseconds since the epoch, the value JS date arithmetic works on. -/
abbrev Time := Int

abbrev UserId := Nat
abbrev PropertyId := Nat
abbrev BookingId := Nat

/-- `1000 * 60 * 60 * 24`, the divisor used for night counting. -/
def msPerDay : Int := 1000 * 60 * 60 * 24

/-- `Math.ceil (a / b)` for integer `a` and positive integer `b`, as JS
computes it on exact values: the ceiling of the rational quotient. -/
def jsCeilDiv (a b : Int) : Int := -(Int.ediv (-a) b)

inductive Role where
  | user
  | admin
deriving DecidableEq, Repr

/-- The resolved identity attached to a request (`req.user`). -/
structure Actor where
  id : UserId
  role : Role
deriving DecidableEq, Repr

/-- Booking lifecycle statuses appearing anywhere in the source.  The
controller writes `checked_in`; note that the schema enum below omits it. -/
inductive BookingStatus where
  | pending
  | confirmed
  | cancelled
  | checked_in
  | completed
deriving DecidableEq, Repr

/-- The `status` enum of the booking schema:
`['pending', 'confirmed', 'cancelled', 'completed']`.
It does not contain `checked_in`. -/
def bookingStatusEnum : List BookingStatus :=
  [.pending, .confirmed, .cancelled, .completed]

/-- The source string for a status, as interpolated into error messages. -/
def BookingStatus.str : BookingStatus → String
  | .pending => "pending"
  | .confirmed => "confirmed"
  | .cancelled => "cancelled"
  | .checked_in => "checked_in"
  | .completed => "completed"

/-- Payment statuses of the booking schema.  The source enum value
`partial` is spelled `partialPay` here because `partial` is a Lean keyword. -/
inductive PaymentStatus where
  | pending
  | partialPay
  | paid
  | refunded
  | failed
deriving DecidableEq, Repr

/-- The `paymentProof` sub-document of a booking. -/
structure PaymentProof where
  url : String
  publicId : String
  verified : Bool
  verifiedAt : Option Int
  verifiedBy : Option UserId
deriving DecidableEq, Repr

/-- A stored booking document. -/
structure Booking where
  id : BookingId
  property : PropertyId
  user : UserId
  startDate : Int
  endDate : Int
  guests : Nat
  totalPrice : Int
  status : BookingStatus
  paymentStatus : PaymentStatus
  paymentProof : Option PaymentProof
  cancellationReason : Option String
  cancelledAt : Option Int
  cancelledBy : Option UserId
  checkIn : Option Int
  checkOut : Option Int
deriving DecidableEq, Repr

/-- The `features` sub-document of a property (the availability window;
bedroom/bathroom counts and flags are irrelevant to the claims). -/
structure Features where
  availableFrom : Int
  availableTo : Option Int
deriving DecidableEq, Repr

/-- A stored property document. -/
structure Property where
  id : PropertyId
  price : Int
  features : Features
  isAvailable : Bool
  createdBy : UserId
deriving DecidableEq, Repr

/-- A stored review document. -/
structure Review where
  id : Nat
  property : PropertyId
  user : UserId
  booking : BookingId
  rating : Int
  comment : String
deriving DecidableEq, Repr

/-- Outcome of a request handler: either a success payload or an error
response with its HTTP status code and message. -/
inductive Resp (α : Type) where
  | success : α → Resp α
  | error : Nat → String → Resp α
deriving DecidableEq, Repr

/-! ## Availability checker -/

/-- The three-disjunct conflict filter shared by `isDateRangeAvailable`
(booking model) and `isAvailableForDates` (property model): an existing
booking `b` matches the `$or` against the candidate range `[s,e)` iff
`b.startDate ∈ [s, e)`, or `b.endDate ∈ (s, e]`, or `b` contains `[s,e]`. -/
def conflictsWith (s e : Int) (b : Booking) : Bool :=
  (decide (b.startDate < e) && decide (s ≤ b.startDate)) ||
  (decide (s < b.endDate) && decide (b.endDate ≤ e)) ||
  (decide (b.startDate ≤ s) && decide (e ≤ b.endDate))

/-- The full Mongo filter of the conflict query: same property, status not
cancelled, the `$or` above, and (when given) `_id ≠ excludeBookingId`. -/
def matchesConflictQuery (propertyId : PropertyId) (s e : Int)
    (excludeBookingId : Option BookingId) (b : Booking) : Bool :=
  decide (b.property = propertyId) &&
  decide (b.status ≠ .cancelled) &&
  conflictsWith s e b &&
  (match excludeBookingId with
   | some ex => decide (b.id ≠ ex)
   | none => true)

/-- `Booking.isDateRangeAvailable`: counts the documents matching the
conflict query and reports availability iff the count is zero. -/
def isDateRangeAvailable (bookings : List Booking) (propertyId : PropertyId)
    (s e : Int) (excludeBookingId : Option BookingId) : Bool :=
  decide ((bookings.filter (matchesConflictQuery propertyId s e excludeBookingId)).length = 0)

/-- The `availableTo && endDate > availableTo` guard: an absent
`availableTo` is falsy, so the guard never fires. -/
def exceedsAvailableTo (availableTo : Option Int) (e : Int) : Bool :=
  match availableTo with
  | some t => decide (e > t)
  | none => false

/-- `Property.isAvailableForDates`: availability flag, window bounds, then
`findOne` on the conflict query; available iff no conflicting booking. -/
def isAvailableForDates (p : Property) (bookings : List Booking)
    (s e : Int) : Bool :=
  if p.isAvailable = false then false
  else if s < p.features.availableFrom then false
  else if exceedsAvailableTo p.features.availableTo e then false
  else (bookings.find? (matchesConflictQuery p.id s e none)).isNone

/-- Modelled from the spec: the single overlap predicate
`s < e2 AND e > s2` against which the implementation is compared. -/
def specOverlap (s e s2 e2 : Int) : Prop := s < e2 ∧ e > s2

/-- Modelled from the spec: availability of `[s,e)` as §4.2 words it —
flag set, `s` not before `availableFrom`, `availableTo` absent or not
exceeded by `e`, and no non-cancelled booking of the property overlapping
under the single overlap predicate. -/
def specAvailable (p : Property) (bookings : List Booking) (s e : Int) : Prop :=
  p.isAvailable = true ∧
  p.features.availableFrom ≤ s ∧
  (∀ t, p.features.availableTo = some t → e ≤ t) ∧
  ∀ b ∈ bookings, b.property = p.id → b.status ≠ .cancelled →
    ¬ specOverlap s e b.startDate b.endDate

/-! ## Booking ledger handlers -/

/-- Saving a booking document runs schema validation; in particular the
`status` path must hold one of the values of `bookingStatusEnum`.  A value
outside the enum makes the save fail with a validation error. -/
def saveBooking (b : Booking) : Resp Booking :=
  if b.status ∈ bookingStatusEnum then .success b
  else .error 400 ("Booking validation failed: status " ++ b.status.str ++
    " is not a valid enum value")

/-- `createBooking`: resolve the property (404 if absent), run
`isAvailableForDates` over the requested range (400 on conflict), compute
`nights = Math.ceil((endDate - startDate) / msPerDay)` and
`totalPrice = property.price * nights`, then persist a pending booking. -/
def createBooking (props : List Property) (bookings : List Booking)
    (propertyId : PropertyId) (actor : Actor) (s e : Int) (guests : Nat)
    (newId : BookingId) : Resp Booking :=
  match props.find? (fun p => decide (p.id = propertyId)) with
  | none => .error 404 "Property not found"
  | some property =>
    if isAvailableForDates property bookings s e = false then
      .error 400 "Property is not available for the selected dates"
    else
      let nights := jsCeilDiv (e - s) msPerDay
      saveBooking
        { id := newId
          property := propertyId
          user := actor.id
          startDate := s
          endDate := e
          guests := guests
          totalPrice := property.price * nights
          status := .pending
          paymentStatus := .pending
          paymentProof := none
          cancellationReason := none
          cancelledAt := none
          cancelledBy := none
          checkIn := none
          checkOut := none }

/-- The request body of a booking update, restricted to the fields the
claims exercise: new dates and a status value. -/
structure BookingPatch where
  startDate : Option Int
  endDate : Option Int
  status : Option BookingStatus
deriving DecidableEq, Repr

/-- Applying a patch to a booking document, with the recomputed total
price when the controller supplies one. -/
def applyPatch (b : Booking) (patch : BookingPatch) (newTotal : Option Int) :
    Booking :=
  { b with
    startDate := patch.startDate.getD b.startDate
    endDate := patch.endDate.getD b.endDate
    status := patch.status.getD b.status
    totalPrice := newTotal.getD b.totalPrice }

/-- `updateBooking`: authorize (booking owner, property creator, or admin);
if the body carries dates, run `isDateRangeAvailable` excluding this
booking's own id and recompute `totalPrice`; then write the patch (the
`runValidators` option re-checks the status enum). -/
def updateBooking (bookings : List Booking) (booking : Booking)
    (prop : Property) (actor : Actor) (patch : BookingPatch) : Resp Booking :=
  if booking.user ≠ actor.id ∧ prop.createdBy ≠ actor.id ∧
      actor.role ≠ .admin then
    .error 401 "User is not authorized to update this booking"
  else if patch.startDate.isSome || patch.endDate.isSome then
    let s := patch.startDate.getD booking.startDate
    let e := patch.endDate.getD booking.endDate
    if isDateRangeAvailable bookings booking.property s e (some booking.id)
        = false then
      .error 400 "Property is not available for the selected dates"
    else
      saveBooking (applyPatch booking patch
        (some (prop.price * jsCeilDiv (e - s) msPerDay)))
  else
    saveBooking (applyPatch booking patch none)

/-- `cancelBooking`: authorize; then the late-cancellation guard computes
`daysUntilCheckIn = Math.ceil((startDate - now) / msPerDay)` and rejects
non-admin actors when it is `< 2`; otherwise `booking.cancel(...)` sets
status `cancelled` with the actor, reason and timestamp, and saves. -/
def cancelBooking (booking : Booking) (prop : Property) (actor : Actor)
    (reason : String) (now : Int) : Resp Booking :=
  if booking.user ≠ actor.id ∧ prop.createdBy ≠ actor.id ∧
      actor.role ≠ .admin then
    .error 401 "User is not authorized to cancel this booking"
  else
    let daysUntilCheckIn := jsCeilDiv (booking.startDate - now) msPerDay
    if daysUntilCheckIn < 2 ∧ actor.role ≠ .admin then
      .error 400 "Bookings can only be cancelled up to 48 hours before check-in"
    else
      saveBooking
        { booking with
          status := .cancelled
          cancelledAt := some now
          cancelledBy := some actor.id
          cancellationReason := some reason }

/-- `checkIn` handler: only a `confirmed` booking passes the status guard;
then the controller sets the check-in timestamp and status `checked_in`
and saves. -/
def checkIn (booking : Booking) (now : Int) : Resp Booking :=
  if booking.status ≠ .confirmed then
    .error 400 ("Cannot check in a booking with status " ++ booking.status.str)
  else
    saveBooking { booking with checkIn := some now, status := .checked_in }

/-- `checkOut` handler: only a `checked_in` booking passes the status
guard; then the controller sets the check-out timestamp and status
`completed` and saves. -/
def checkOut (booking : Booking) (now : Int) : Resp Booking :=
  if booking.status ≠ .checked_in then
    .error 400 ("Cannot check out a booking with status " ++ booking.status.str)
  else
    saveBooking { booking with checkOut := some now, status := .completed }

/-! ## Payment-proof tracker -/

/-- Metadata of an uploaded file (`req.files.file`). -/
structure FileMeta where
  mimetype : String
  size : Nat
deriving DecidableEq, Repr

/-- `uploadPaymentProof` on the success path of the media upload:
authorize (booking owner or admin); require a file, an image mimetype
(`mimetype.startsWith('image')`, expressed over the character lists so it
evaluates) and size at most 1 MB; store the proof with `verified` set
exactly when the actor is an admin, and set `paymentStatus` to `paid` for
an admin and to `pending` otherwise; then save. -/
def uploadPaymentProof (booking : Booking) (actor : Actor)
    (file : Option FileMeta) (uploadedUrl uploadedId : String) (now : Int) :
    Resp Booking :=
  if booking.user ≠ actor.id ∧ actor.role ≠ .admin then
    .error 401 "User is not authorized to update this booking"
  else
    match file with
    | none => .error 400 "Please upload a file"
    | some f =>
      if ("image".data.isPrefixOf f.mimetype.data) = false then
        .error 400 "Please upload an image file"
      else if f.size > 1000000 then
        .error 400 "Please upload an image less than 1000KB"
      else
        let isAdmin := actor.role = .admin
        saveBooking
          { booking with
            paymentProof := some
              { url := uploadedUrl
                publicId := uploadedId
                verified := isAdmin
                verifiedAt := if isAdmin then some now else none
                verifiedBy := if isAdmin then some actor.id else none }
            paymentStatus := if isAdmin then .paid else .pending }

/-- `verifyPayment`: requires an existing proof record (else 400); marks it
verified with the actor and timestamp, sets `paymentStatus` to `paid`, and
promotes the booking to `confirmed` only when its status was `pending`. -/
def verifyPayment (booking : Booking) (actor : Actor) (now : Int) :
    Resp Booking :=
  match booking.paymentProof with
  | none => .error 400 "No payment proof found for this booking"
  | some proof =>
    saveBooking
      { booking with
        paymentProof := some
          { proof with
            verified := true
            verifiedAt := some now
            verifiedBy := some actor.id }
        paymentStatus := .paid
        status := if booking.status = .pending then .confirmed
                  else booking.status }

/-! ## Review aggregator -/

/-- The `Booking.findOne` filter of `addReview`.  The source builds the
filter object with a duplicated `checkOut` key: the earlier
`checkOut: { $lte: new Date() }` entry is overwritten by the later
`checkOut: { $exists: true }`, so the effective query only requires that a
check-out timestamp exists — the bound against `now` is lost. -/
def completedBookingQuery (userId : UserId) (propertyId : PropertyId)
    (b : Booking) : Bool :=
  decide (b.user = userId) &&
  decide (b.property = propertyId) &&
  decide (b.status = .completed) &&
  b.checkIn.isSome &&
  b.checkOut.isSome

/-- `addReview`: resolve the property (404); require a completed booking of
the caller for this property unless the caller is an admin (401); reject a
caller who already has a review for this property (400); then create the
review (schema validation bounds the rating to `[1,5]` and the comment to
1000 characters). -/
def addReview (props : List Property) (bookings : List Booking)
    (reviews : List Review) (actor : Actor) (propertyId : PropertyId)
    (bookingRef : BookingId) (rating : Int) (comment : String)
    (newId : Nat) : Resp Review :=
  match props.find? (fun p => decide (p.id = propertyId)) with
  | none => .error 404 "No property with that id"
  | some _ =>
    let booking := bookings.find? (completedBookingQuery actor.id propertyId)
    if booking.isNone ∧ actor.role ≠ .admin then
      .error 401 "User is not authorized to add a review for this property"
    else
      match reviews.find? (fun r =>
          decide (r.user = actor.id) && decide (r.property = propertyId)) with
      | some _ => .error 400 "User has already reviewed this property"
      | none =>
        if rating < 1 ∨ 5 < rating then
          .error 400 "Review validation failed: rating out of bounds"
        else if 1000 < comment.length then
          .error 400 "Review validation failed: comment too long"
        else
          .success
            { id := newId
              property := propertyId
              user := actor.id
              booking := bookingRef
              rating := rating
              comment := comment }

/-- The ratings of the reviews of one property, in aggregation order. -/
def ratingsFor (reviews : List Review) (propertyId : PropertyId) : List Int :=
  (reviews.filter (fun r => decide (r.property = propertyId))).map
    (fun r => r.rating)

/-- The controller helper `calculateAverageRating`: the pair
`(averageRating, numberOfReviews)` written to the property — the mean
rounded up at the first decimal (`Math.ceil(avg * 10) / 10`) when reviews
exist, and `(0, 0)` when the aggregation returns no group. -/
def calculateAverageRating (reviews : List Review) (propertyId : PropertyId) :
    ℚ × Nat :=
  let ratings := ratingsFor reviews propertyId
  if ratings.length = 0 then (0, 0)
  else
    ((⌈((ratings.sum : ℚ) / (ratings.length : ℚ)) * 10⌉ : ℚ) / 10,
     ratings.length)

/-- The Review model static `calcAverageRatings`: the pair
`(ratingsAverage, ratingsQuantity)` it writes — the raw mean when reviews
exist, and the default baseline `4.5` with quantity `0` when none remain.
It runs from the `post('save')` and `post(/^findOneAnd/)` middleware of the
review schema, not from the controller's delete path. -/
def calcAverageRatings (reviews : List Review) (propertyId : PropertyId) :
    ℚ × Nat :=
  let ratings := ratingsFor reviews propertyId
  if ratings.length = 0 then (9 / 2, 0)
  else ((ratings.sum : ℚ) / (ratings.length : ℚ), ratings.length)

/-- `deleteReview`: resolve the review (404); authorize (author or admin);
remove the document with `review.remove()` (which fires neither the
`post('save')` nor the `post(/^findOneAnd/)` middleware), then run the
controller's `calculateAverageRating` over the remaining reviews.  The
success value is the remaining collection together with the
`(averageRating, numberOfReviews)` pair written to the property. -/
def deleteReview (reviews : List Review) (reviewId : Nat) (actor : Actor) :
    Resp (List Review × ℚ × Nat) :=
  match reviews.find? (fun r => decide (r.id = reviewId)) with
  | none => .error 404 "No review with that id"
  | some review =>
    if review.user ≠ actor.id ∧ actor.role ≠ .admin then
      .error 401 "Not authorized to delete review"
    else
      let remaining := reviews.filter (fun r => decide (r.id ≠ reviewId))
      .success (remaining, calculateAverageRating remaining review.property)

/-! ## Helper lemmas -/

/-- For non-degenerate ranges, the three-disjunct filter coincides with the
single overlap predicate. -/
theorem conflictsWith_iff (s e : Int) (b : Booking)
    (hse : s < e) (hb : b.startDate < b.endDate) :
    conflictsWith s e b = true ↔ specOverlap s e b.startDate b.endDate := by
  unfold conflictsWith specOverlap
  simp only [Bool.or_eq_true, Bool.and_eq_true, decide_eq_true_eq]
  omega

theorem matchesConflictQuery_none_iff (pid : PropertyId) (s e : Int)
    (b : Booking) (hse : s < e) (hb : b.startDate < b.endDate) :
    matchesConflictQuery pid s e none b = true ↔
      (b.property = pid ∧ b.status ≠ .cancelled ∧
        specOverlap s e b.startDate b.endDate) := by
  simp only [matchesConflictQuery, Bool.and_eq_true, decide_eq_true_eq,
    and_true, conflictsWith_iff s e b hse hb, and_assoc]

theorem find?_isNone_iff {α : Type} (p : α → Bool) (l : List α) :
    (l.find? p).isNone = true ↔ ∀ a ∈ l, p a = false := by
  rw [Option.isNone_iff_eq_none, List.find?_eq_none]
  simp [Bool.not_eq_true]

theorem isDateRangeAvailable_iff (bookings : List Booking)
    (pid : PropertyId) (s e : Int) (ex : Option BookingId) :
    isDateRangeAvailable bookings pid s e ex = true ↔
      ∀ b ∈ bookings, matchesConflictQuery pid s e ex b = false := by
  simp only [isDateRangeAvailable, decide_eq_true_eq, List.length_eq_zero,
    List.filter_eq_nil_iff, Bool.not_eq_true]

theorem exceedsAvailableTo_false_iff (a : Option Int) (e : Int) :
    exceedsAvailableTo a e = false ↔ ∀ t, a = some t → e ≤ t := by
  cases a with
  | none => simp [exceedsAvailableTo]
  | some t =>
    simp only [exceedsAvailableTo, decide_eq_false_iff_not, not_lt,
      Option.some.injEq]
    constructor
    · intro h t' ht'
      omega
    · intro h
      exact h t rfl

/-! ## Claim theorems -/

/-- C1: for every property and every pair of dates `s < e`, the
availability check (`isAvailableForDates` / `isDateRangeAvailable`)
returns true iff the availability flag is set, `s` is not before
`availableFrom`, `availableTo` is absent or not exceeded by `e`, and no
non-cancelled booking of the property overlaps `[s,e)`; the three-disjunct
conflict query is equivalent, on non-degenerate ranges, to the single
overlap predicate `s < e2 AND e > s2`. -/
theorem availability_check_iff_single_overlap (p : Property)
    (bookings : List Booking) (s e : Int) (hse : s < e)
    (hb : ∀ b ∈ bookings, b.startDate < b.endDate) :
    (isAvailableForDates p bookings s e = true ↔
      specAvailable p bookings s e)
    ∧ (isDateRangeAvailable bookings p.id s e none = true ↔
        ∀ b ∈ bookings, b.property = p.id → b.status ≠ .cancelled →
          ¬ specOverlap s e b.startDate b.endDate) := by
  have key : ∀ b ∈ bookings, matchesConflictQuery p.id s e none b = false ↔
      (b.property = p.id → b.status ≠ .cancelled →
        ¬ specOverlap s e b.startDate b.endDate) := by
    intro b hbmem
    rw [← Bool.not_eq_true,
      matchesConflictQuery_none_iff p.id s e b hse (hb b hbmem)]
    tauto
  have hforall : (∀ b ∈ bookings,
      matchesConflictQuery p.id s e none b = false) ↔
      (∀ b ∈ bookings, b.property = p.id → b.status ≠ .cancelled →
        ¬ specOverlap s e b.startDate b.endDate) := by
    constructor
    · intro h b hbmem
      exact (key b hbmem).1 (h b hbmem)
    · intro h b hbmem
      exact (key b hbmem).2 (h b hbmem)
  have hrange : isDateRangeAvailable bookings p.id s e none = true ↔
      ∀ b ∈ bookings, b.property = p.id → b.status ≠ .cancelled →
        ¬ specOverlap s e b.startDate b.endDate := by
    rw [isDateRangeAvailable_iff]
    exact hforall
  refine ⟨?_, hrange⟩
  have hfind : (bookings.find? (matchesConflictQuery p.id s e none)).isNone
      = true ↔
      ∀ b ∈ bookings, b.property = p.id → b.status ≠ .cancelled →
        ¬ specOverlap s e b.startDate b.endDate := by
    rw [find?_isNone_iff]
    exact hforall
  unfold isAvailableForDates
  split_ifs with h1 h2 h3
  · simp only [Bool.false_eq_true, false_iff, specAvailable]
    rintro ⟨hflag, -, -, -⟩
    rw [h1] at hflag
    exact Bool.false_ne_true hflag
  · simp only [Bool.false_eq_true, false_iff, specAvailable]
    rintro ⟨-, hle, -, -⟩
    omega
  · simp only [Bool.false_eq_true, false_iff, specAvailable]
    rintro ⟨-, -, hto, -⟩
    have hfalse : exceedsAvailableTo p.features.availableTo e = false :=
      (exceedsAvailableTo_false_iff p.features.availableTo e).2 hto
    rw [hfalse] at h3
    exact Bool.false_ne_true h3
  · rw [hfind]
    unfold specAvailable
    constructor
    · intro h
      refine ⟨?_, by omega, ?_, h⟩
      · cases hI : p.isAvailable with
        | false => exact absurd hI h1
        | true => rfl
      · refine (exceedsAvailableTo_false_iff p.features.availableTo e).1 ?_
        cases hE : exceedsAvailableTo p.features.availableTo e with
        | false => rfl
        | true => exact absurd hE h3
    · rintro ⟨-, -, -, h⟩
      exact h

def c1Prop : Property :=
  { id := 1, price := 100, features := { availableFrom := 0, availableTo := some 10000 },
    isAvailable := true, createdBy := 5 }

def c1Booking : Booking :=
  { id := 2, property := 1, user := 6, startDate := 100, endDate := 200,
    guests := 2, totalPrice := 100, status := .confirmed,
    paymentStatus := .pending, paymentProof := none,
    cancellationReason := none, cancelledAt := none, cancelledBy := none,
    checkIn := none, checkOut := none }

/-- Witness for C1 at a concrete property, booking list and range. -/
theorem availability_check_iff_single_overlap_witness :
    ((100 : Int) < 300 ∧ ∀ b ∈ [c1Booking], b.startDate < b.endDate) ∧
    ((isAvailableForDates c1Prop [c1Booking] 100 300 = true ↔
        specAvailable c1Prop [c1Booking] 100 300)
      ∧ (isDateRangeAvailable [c1Booking] c1Prop.id 100 300 none = true ↔
          ∀ b ∈ [c1Booking], b.property = c1Prop.id →
            b.status ≠ .cancelled →
            ¬ specOverlap 100 300 b.startDate b.endDate)) :=
  ⟨⟨by decide, by decide⟩,
    availability_check_iff_single_overlap c1Prop [c1Booking] 100 300
      (by decide) (by decide)⟩

def c2Pending : Booking :=
  { id := 3, property := 1, user := 6, startDate := 1000, endDate := 2000,
    guests := 1, totalPrice := 100, status := .pending,
    paymentStatus := .pending, paymentProof := none,
    cancellationReason := none, cancelledAt := none, cancelledBy := none,
    checkIn := none, checkOut := none }

def c2Confirmed : Booking :=
  { c2Pending with id := 4, status := .confirmed }

/-- C2: `checkIn` on a pending booking fails with the state-conflict error
naming the status, as claimed; but `checkIn` on a confirmed booking does
NOT succeed: the controller sets status `checked_in`, which the booking
schema enum (`['pending','confirmed','cancelled','completed']`) does not
contain, so the save fails validation and the request errors. -/
theorem checkin_confirmed_fails_schema_enum :
    checkIn c2Pending 500 =
      Resp.error 400 "Cannot check in a booking with status pending"
    ∧ checkIn c2Confirmed 500 =
      Resp.error 400
        "Booking validation failed: status checked_in is not a valid enum value"
    ∧ (∀ b', checkIn c2Confirmed 500 ≠ Resp.success b')
    ∧ BookingStatus.checked_in ∉ bookingStatusEnum := by
  have h2 : checkIn c2Confirmed 500 =
      Resp.error 400
        "Booking validation failed: status checked_in is not a valid enum value" := by
    decide
  refine ⟨by decide, h2, ?_, by decide⟩
  intro b' h
  rw [h2] at h
  exact Resp.noConfusion h

def c3Completed : Booking :=
  { id := 5, property := 1, user := 6, startDate := 1000000, endDate := 2000000,
    guests := 1, totalPrice := 100, status := .completed,
    paymentStatus := .paid, paymentProof := none,
    cancellationReason := none, cancelledAt := none, cancelledBy := none,
    checkIn := some 1000000, checkOut := some 2000000 }

def c3Prop : Property :=
  { id := 1, price := 100, features := { availableFrom := 0, availableTo := none },
    isAvailable := true, createdBy := 5 }

def c3Admin : Actor := { id := 9, role := .admin }

/-- Counterexample to C3: `cancelBooking` has no guard on the current
status, so an admin cancel call on a `completed` booking succeeds and
moves it to `cancelled`. -/
theorem admin_can_cancel_completed_booking :
    c3Completed.status = .completed ∧
    cancelBooking c3Completed c3Prop c3Admin "mistake" 3000000 =
      Resp.success
        { c3Completed with
          status := .cancelled
          cancelledAt := some 3000000
          cancelledBy := some 9
          cancellationReason := some "mistake" } := by
  exact ⟨rfl, by decide⟩

/-- C3 amended: `checkIn` and `checkOut` reject a `cancelled` or
`completed` booking and `verifyPayment` preserves such a status, but
cancellation and update are not guarded by the current status: an admin
can cancel a booking of any status, and an update can set any
schema-enum status. -/
theorem terminal_status_amended (b : Booking) (bookings : List Booking)
    (prop : Property) (actor : Actor) (reason : String) (now : Int)
    (hterm : b.status = .cancelled ∨ b.status = .completed) :
    (∀ b', checkIn b now ≠ Resp.success b')
    ∧ (∀ b', checkOut b now ≠ Resp.success b')
    ∧ (∀ b', verifyPayment b actor now = Resp.success b' →
        b'.status = b.status)
    ∧ (actor.role = .admin →
        ∃ b', cancelBooking b prop actor reason now = Resp.success b'
          ∧ b'.status = .cancelled)
    ∧ (actor.id = b.user →
        ∃ b', updateBooking bookings b prop actor
            { startDate := none, endDate := none, status := some .pending }
            = Resp.success b' ∧ b'.status = .pending) := by
  refine ⟨?_, ?_, ?_, ?_, ?_⟩
  · intro b' hx
    rcases hterm with h | h <;> simp [checkIn, h] at hx
  · intro b' hx
    rcases hterm with h | h <;> simp [checkOut, h] at hx
  · intro b' hx
    cases hp : b.paymentProof with
    | none => simp [verifyPayment, hp] at hx
    | some proof =>
      rcases hterm with h | h <;>
        simp [verifyPayment, hp, saveBooking, h, bookingStatusEnum] at hx <;>
        simp [← hx, h]
  · intro hadm
    refine ⟨{ b with
        status := .cancelled
        cancelledAt := some now
        cancelledBy := some actor.id
        cancellationReason := some reason }, ?_, rfl⟩
    simp [cancelBooking, hadm, saveBooking, bookingStatusEnum]
  · intro hown
    refine ⟨applyPatch b
      { startDate := none, endDate := none, status := some .pending } none,
      ?_, rfl⟩
    simp [updateBooking, ← hown, saveBooking, applyPatch, bookingStatusEnum]

/-- Witness for the amended C3 at a concrete completed booking. -/
theorem terminal_status_amended_witness :
    (c3Completed.status = .cancelled ∨ c3Completed.status = .completed) ∧
    ((∀ b', checkIn c3Completed 0 ≠ Resp.success b')
    ∧ (∀ b', checkOut c3Completed 0 ≠ Resp.success b')
    ∧ (∀ b', verifyPayment c3Completed c3Admin 0 = Resp.success b' →
        b'.status = c3Completed.status)
    ∧ (c3Admin.role = .admin →
        ∃ b', cancelBooking c3Completed c3Prop c3Admin "why" 0 = Resp.success b'
          ∧ b'.status = .cancelled)
    ∧ (c3Admin.id = c3Completed.user →
        ∃ b', updateBooking [] c3Completed c3Prop c3Admin
            { startDate := none, endDate := none, status := some .pending }
            = Resp.success b' ∧ b'.status = .pending)) :=
  ⟨by decide,
    terminal_status_amended c3Completed [] c3Prop c3Admin "why" 0 (by decide)⟩

/-- C4: every booking that `createBooking` persists, and every booking
whose dates `updateBooking` changes, carries
`totalPrice = price * nights` with
`nights = Math.ceil((endDate - startDate) / msPerDay)`. -/
theorem totalPrice_eq_nights_times_price :
    (∀ props bookings propertyId actor s e guests newId b,
      createBooking props bookings propertyId actor s e guests newId
        = Resp.success b →
      ∃ p, props.find? (fun q => decide (q.id = propertyId)) = some p ∧
        b.totalPrice = p.price * jsCeilDiv (e - s) msPerDay)
    ∧ (∀ bookings booking prop actor patch b,
      (patch.startDate.isSome || patch.endDate.isSome) = true →
      updateBooking bookings booking prop actor patch = Resp.success b →
      b.totalPrice = prop.price *
        jsCeilDiv (patch.endDate.getD booking.endDate
          - patch.startDate.getD booking.startDate) msPerDay) := by
  constructor
  · intro props bookings propertyId actor s e guests newId b h
    unfold createBooking at h
    cases hfind : props.find? (fun q => decide (q.id = propertyId)) with
    | none => rw [hfind] at h; exact absurd h (by simp)
    | some p =>
      rw [hfind] at h
      refine ⟨p, rfl, ?_⟩
      simp only [saveBooking] at h
      split_ifs at h
      all_goals first
        | exact absurd h (fun hx => Resp.noConfusion hx)
        | (injection h with hb; subst hb; rfl)
  · intro bookings booking prop actor patch b hdates h
    simp only [updateBooking, saveBooking] at h
    split_ifs at h
    all_goals first
      | exact absurd h (fun hx => Resp.noConfusion hx)
      | exact absurd hdates (by assumption)
      | (injection h with hb; subst hb; simp [applyPatch])

def c4Prop : Property :=
  { id := 1, price := 200, features := { availableFrom := 0, availableTo := none },
    isAvailable := true, createdBy := 5 }

def c4Created : Booking :=
  { id := 10, property := 1, user := 6, startDate := 1748736000000,
    endDate := 1749254400000, guests := 2, totalPrice := 1200,
    status := .pending, paymentStatus := .pending, paymentProof := none,
    cancellationReason := none, cancelledAt := none, cancelledBy := none,
    checkIn := none, checkOut := none }

/-- Witness for C4: price 200, 2025-06-01 to 2025-06-07 gives 6 nights and
totalPrice 1200. -/
theorem totalPrice_eq_nights_times_price_witness :
    (∃ p, [c4Prop].find? (fun q => decide (q.id = 1)) = some p ∧
      c4Created.totalPrice =
        p.price * jsCeilDiv ((1749254400000 : Int) - 1748736000000) msPerDay)
    ∧ c4Created.totalPrice = 1200
    ∧ jsCeilDiv ((1749254400000 : Int) - 1748736000000) msPerDay = 6 :=
  ⟨totalPrice_eq_nights_times_price.1 [c4Prop] [] 1 { id := 6, role := .user }
      1748736000000 1749254400000 2 10 c4Created (by decide),
    by decide, by decide⟩

theorem status_ne_checked_in_mem (st : BookingStatus)
    (h : st ≠ .checked_in) : st ∈ bookingStatusEnum := by
  cases st <;> simp_all [bookingStatusEnum]

/-- C5: a date update of a booking to the very dates it already holds
succeeds even though the booking itself is in the collection, because the
conflict query excludes the booking's own id. -/
theorem self_excluding_date_update_succeeds (bookings : List Booking)
    (booking : Booking) (prop : Property) (actor : Actor)
    (_hmem : booking ∈ bookings)
    (hauth : actor.id = booking.user)
    (hst : booking.status ≠ .checked_in)
    (hothers : ∀ b ∈ bookings, b.id ≠ booking.id →
      b.property = booking.property → b.status ≠ .cancelled →
      conflictsWith booking.startDate booking.endDate b = false) :
    ∃ b', updateBooking bookings booking prop actor
        { startDate := some booking.startDate,
          endDate := some booking.endDate, status := none }
        = Resp.success b'
      ∧ b'.startDate = booking.startDate
      ∧ b'.endDate = booking.endDate := by
  have havail : isDateRangeAvailable bookings booking.property
      booking.startDate booking.endDate (some booking.id) = true := by
    simp only [isDateRangeAvailable, decide_eq_true_eq, List.length_eq_zero,
      List.filter_eq_nil_iff, Bool.not_eq_true]
    intro b hbmem
    by_cases hid : b.id = booking.id
    · simp [matchesConflictQuery, hid]
    · by_cases hpropb : b.property = booking.property
      · by_cases hstat : b.status = BookingStatus.cancelled
        · simp [matchesConflictQuery, hstat]
        · simp [matchesConflictQuery,
            hothers b hbmem hid hpropb hstat]
      · simp [matchesConflictQuery, hpropb]
  refine ⟨applyPatch booking
      { startDate := some booking.startDate,
        endDate := some booking.endDate, status := none }
      (some (prop.price *
        jsCeilDiv (booking.endDate - booking.startDate) msPerDay)),
    ?_, rfl, rfl⟩
  have henum := status_ne_checked_in_mem booking.status hst
  simp [updateBooking, ← hauth, havail, saveBooking, applyPatch, henum]

def c5Booking : Booking :=
  { id := 11, property := 1, user := 6, startDate := 1000, endDate := 2000,
    guests := 2, totalPrice := 100, status := .confirmed,
    paymentStatus := .pending, paymentProof := none,
    cancellationReason := none, cancelledAt := none, cancelledBy := none,
    checkIn := none, checkOut := none }

def c5Other : Booking :=
  { c5Booking with id := 12, startDate := 3000, endDate := 4000 }

def c5Prop : Property :=
  { id := 1, price := 100, features := { availableFrom := 0, availableTo := none },
    isAvailable := true, createdBy := 5 }

/-- Witness for C5: a booking amid a non-overlapping neighbour is updated
to its own dates and the update succeeds. -/
theorem self_excluding_date_update_succeeds_witness :
    (c5Booking ∈ [c5Booking, c5Other]
      ∧ ((6 : UserId) : UserId) = c5Booking.user
      ∧ c5Booking.status ≠ .checked_in
      ∧ ∀ b ∈ [c5Booking, c5Other], b.id ≠ c5Booking.id →
          b.property = c5Booking.property → b.status ≠ .cancelled →
          conflictsWith c5Booking.startDate c5Booking.endDate b = false)
    ∧ ∃ b', updateBooking [c5Booking, c5Other] c5Booking c5Prop
          { id := 6, role := .user }
          { startDate := some c5Booking.startDate,
            endDate := some c5Booking.endDate, status := none }
          = Resp.success b'
        ∧ b'.startDate = c5Booking.startDate
        ∧ b'.endDate = c5Booking.endDate :=
  ⟨⟨by decide, by decide, by decide, by decide⟩,
    self_excluding_date_update_succeeds [c5Booking, c5Other] c5Booking
      c5Prop { id := 6, role := .user } (by decide) (by decide) (by decide)
      (by decide)⟩

def c6Review : Review :=
  { id := 1, property := 1, user := 6, booking := 2, rating := 5,
    comment := "great stay" }

def c6Actor : Actor := { id := 6, role := .user }

/-- Counterexample to C6: deleting the only review of a property runs the
controller recomputation, which writes average 0 — not the 4.5 baseline —
and count 0. -/
theorem delete_only_review_writes_zero :
    deleteReview [c6Review] 1 c6Actor = Resp.success ([], 0, 0)
    ∧ (0 : ℚ) ≠ 9 / 2 := by
  refine ⟨rfl, by norm_num⟩

/-- C6 amended: after deleting the only review of a property, the
controller's `calculateAverageRating` resets the stored average to 0 and
the count to 0; the 4.5 baseline lives only in the Review model's
`calcAverageRatings`, which the controller's delete path does not invoke. -/
theorem delete_only_review_amended (r : Review) (actor : Actor)
    (pid : PropertyId) (hauth : r.user = actor.id) :
    deleteReview [r] r.id actor = Resp.success ([], 0, 0)
    ∧ calcAverageRatings [] pid = (9 / 2, 0) := by
  constructor
  · simp [deleteReview, hauth, calculateAverageRating, ratingsFor]
  · rfl

/-- Witness for the amended C6 at a concrete review and actor. -/
theorem delete_only_review_amended_witness :
    c6Review.user = c6Actor.id ∧
    (deleteReview [c6Review] c6Review.id c6Actor = Resp.success ([], 0, 0)
      ∧ calcAverageRatings [] 1 = (9 / 2, 0)) :=
  ⟨rfl, delete_only_review_amended c6Review c6Actor 1 rfl⟩

def c7Booking : Booking :=
  { id := 13, property := 1, user := 6, startDate := 129600000,
    endDate := 302400000, guests := 1, totalPrice := 100,
    status := .confirmed, paymentStatus := .pending, paymentProof := none,
    cancellationReason := none, cancelledAt := none, cancelledBy := none,
    checkIn := none, checkOut := none }

def c7Prop : Property :=
  { id := 1, price := 100, features := { availableFrom := 0, availableTo := none },
    isAvailable := true, createdBy := 5 }

def c7Owner : Actor := { id := 6, role := .user }

/-- C7: the late-cancellation guard does not reject every call with fewer
than 2 days to go — at 36 hours before `startDate` (1.5 days, so
`Math.ceil` gives 2, not `< 2`) a non-admin cancellation succeeds, even
though fewer than 2 days remain and the error message promises a 48-hour
cutoff. -/
theorem late_cancellation_guard_allows_36_hours :
    c7Owner.role ≠ .admin
    ∧ c7Booking.startDate - 0 < 2 * msPerDay
    ∧ jsCeilDiv (c7Booking.startDate - 0) msPerDay = 2
    ∧ cancelBooking c7Booking c7Prop c7Owner "change of plans" 0 =
        Resp.success
          { c7Booking with
            status := .cancelled
            cancelledAt := some 0
            cancelledBy := some 6
            cancellationReason := some "change of plans" } := by
  refine ⟨by decide, by decide, by decide, by decide⟩

/-- C8: a successful payment-proof upload stores `verified = true` and
`paymentStatus = paid` exactly when the uploading actor is an admin; any
other actor gets `verified = false` and `paymentStatus = pending`. -/
theorem payment_proof_verified_iff_admin (booking : Booking) (actor : Actor)
    (file : Option FileMeta) (url pubId : String) (now : Int) (b' : Booking)
    (h : uploadPaymentProof booking actor file url pubId now
      = Resp.success b') :
    ∃ proof, b'.paymentProof = some proof ∧
      ((proof.verified = true ∧ b'.paymentStatus = .paid) ↔
        actor.role = .admin)
      ∧ (actor.role ≠ .admin →
          proof.verified = false ∧ b'.paymentStatus = .pending) := by
  cases file with
  | none =>
    simp only [uploadPaymentProof, saveBooking] at h
    split_ifs at h
  | some f =>
    simp only [uploadPaymentProof, saveBooking] at h
    split_ifs at h
    all_goals injection h with hb
    all_goals subst hb
    all_goals cases hrole : actor.role
    all_goals simp_all

def c8Booking : Booking :=
  { id := 14, property := 1, user := 6, startDate := 1000, endDate := 2000,
    guests := 1, totalPrice := 100, status := .pending,
    paymentStatus := .pending, paymentProof := none,
    cancellationReason := none, cancelledAt := none, cancelledBy := none,
    checkIn := none, checkOut := none }

def c8File : FileMeta := { mimetype := "image/png", size := 5000 }

def c8Uploaded : Booking :=
  { c8Booking with
    paymentProof := some
      { url := "u", publicId := "p", verified := false,
        verifiedAt := none, verifiedBy := none }
    paymentStatus := .pending }

/-- Witness for C8: a non-admin owner uploads a proof; it is stored
unverified with payment status pending. -/
theorem payment_proof_verified_iff_admin_witness :
    ∃ proof, c8Uploaded.paymentProof = some proof ∧
      ((proof.verified = true ∧ c8Uploaded.paymentStatus = .paid) ↔
        ({ id := 6, role := .user } : Actor).role = .admin)
      ∧ (({ id := 6, role := .user } : Actor).role ≠ .admin →
          proof.verified = false ∧ c8Uploaded.paymentStatus = .pending) :=
  payment_proof_verified_iff_admin c8Booking { id := 6, role := .user }
    (some c8File) "u" "p" 777 c8Uploaded (by decide)

def c9Prop : Property :=
  { id := 1, price := 100, features := { availableFrom := 0, availableTo := none },
    isAvailable := true, createdBy := 5 }

def c9Admin : Actor := { id := 9, role := .admin }

/-- Counterexample to C9: an admin caller with no booking whatsoever (the
booking collection is empty, so the referenced booking 99 neither belongs
to the reviewer nor is completed) still persists a review. -/
theorem admin_review_without_booking_succeeds :
    addReview [c9Prop] [] [] c9Admin 1 99 5 "lovely" 7 =
      Resp.success
        { id := 7, property := 1, user := 9, booking := 99, rating := 5,
          comment := "lovely" } := by
  decide

/-- C9 amended: for a NON-admin caller, a persisted review implies some
booking of the caller for the property is completed with recorded
check-in and check-out (the referenced booking id is not checked, nor is
the check-out bound against the time of the call, whose query key is
overwritten), and the caller had no previous review for the property. -/
theorem add_review_preconditions_amended (props : List Property)
    (bookings : List Booking) (reviews : List Review) (actor : Actor)
    (pid : PropertyId) (bookingRef : BookingId) (rating : Int)
    (comment : String) (newId : Nat) (r : Review)
    (hrole : actor.role ≠ .admin)
    (h : addReview props bookings reviews actor pid bookingRef rating
      comment newId = Resp.success r) :
    (∃ b ∈ bookings, b.user = actor.id ∧ b.property = pid ∧
      b.status = .completed ∧ b.checkIn.isSome ∧ b.checkOut.isSome)
    ∧ ∀ rv ∈ reviews, ¬(rv.user = actor.id ∧ rv.property = pid) := by
  simp only [addReview] at h
  split at h
  next => exact absurd h (fun hx => Resp.noConfusion hx)
  next p0 hp =>
    split at h
    next hq => exact absurd h (fun hx => Resp.noConfusion hx)
    next hq =>
      rw [not_and_or] at hq
      have hsome : ∃ b0, bookings.find? (completedBookingQuery actor.id pid)
          = some b0 := by
        rcases hq with hq | hq
        · cases hfx : bookings.find? (completedBookingQuery actor.id pid) with
          | none =>
            rw [hfx] at hq
            exact absurd Option.isNone_none hq
          | some b0 => exact ⟨b0, rfl⟩
        · exact absurd hrole (by simpa using hq)
      split at h
      next rv0 hrv0 => exact absurd h (fun hx => Resp.noConfusion hx)
      next hnone =>
        split at h
        next => exact absurd h (fun hx => Resp.noConfusion hx)
        next =>
          split at h
          next => exact absurd h (fun hx => Resp.noConfusion hx)
          next =>
            constructor
            · obtain ⟨b0, hfind⟩ := hsome
              refine ⟨b0, List.mem_of_find?_eq_some hfind, ?_⟩
              have hpred := List.find?_some hfind
              simp only [completedBookingQuery, Bool.and_eq_true,
                decide_eq_true_eq] at hpred
              obtain ⟨⟨⟨⟨h1, h2⟩, h3⟩, h4⟩, h5⟩ := hpred
              exact ⟨h1, h2, h3, h4, h5⟩
            · intro rv hmem hcontra
              have hx := List.find?_eq_none.1 hnone rv hmem
              simp [hcontra.1, hcontra.2] at hx

def c9User : Actor := { id := 6, role := .user }

def c9Completed : Booking :=
  { id := 2, property := 1, user := 6, startDate := 1000, endDate := 2000,
    guests := 1, totalPrice := 100, status := .completed,
    paymentStatus := .paid, paymentProof := none,
    cancellationReason := none, cancelledAt := none, cancelledBy := none,
    checkIn := some 1000, checkOut := some 2000 }

/-- Witness for the amended C9: a non-admin reviewer whose add-review call
succeeded indeed has a completed, checked-out booking and no prior
review. -/
theorem add_review_preconditions_amended_witness :
    (c9User.role ≠ .admin ∧
      addReview [c9Prop] [c9Completed] [] c9User 1 2 4 "nice" 8 =
        Resp.success
          { id := 8, property := 1, user := 6, booking := 2, rating := 4,
            comment := "nice" }) ∧
    ((∃ b ∈ [c9Completed], b.user = c9User.id ∧ b.property = 1 ∧
        b.status = .completed ∧ b.checkIn.isSome ∧ b.checkOut.isSome)
      ∧ ∀ rv ∈ ([] : List Review), ¬(rv.user = c9User.id ∧ rv.property = 1)) :=
  ⟨⟨by decide, by decide⟩,
    add_review_preconditions_amended [c9Prop] [c9Completed] [] c9User 1 2 4
      "nice" 8
      { id := 8, property := 1, user := 6, booking := 2, rating := 4,
        comment := "nice" }
      (by decide) (by decide)⟩

/-- C10: the add-review handler rejects a caller who already reviewed the
property, whatever booking the request references — even when no review
exists for the (referenced booking, user) pair, so the check is strictly
stronger than the schema's unique index on (booking, user). -/
theorem review_uniqueness_per_user_property (props : List Property)
    (bookings : List Booking) (reviews : List Review) (actor : Actor)
    (pid : PropertyId) (bookingRef : BookingId) (rating : Int)
    (comment : String) (newId : Nat)
    (hprop : (props.find? (fun p => decide (p.id = pid))).isSome = true)
    (hqual : ∃ b ∈ bookings, completedBookingQuery actor.id pid b = true)
    (hex : ∃ rv ∈ reviews, rv.user = actor.id ∧ rv.property = pid)
    (_hschema : ∀ rv ∈ reviews,
      ¬(rv.booking = bookingRef ∧ rv.user = actor.id)) :
    addReview props bookings reviews actor pid bookingRef rating comment
      newId = Resp.error 400 "User has already reviewed this property" := by
  obtain ⟨p0, hp⟩ := Option.isSome_iff_exists.1 hprop
  obtain ⟨b0, hb0mem, hb0⟩ := hqual
  have hbsome : (bookings.find? (completedBookingQuery actor.id pid)).isSome := by
    rw [List.find?_isSome]
    exact ⟨b0, hb0mem, hb0⟩
  have hcond : ¬((bookings.find? (completedBookingQuery actor.id pid)).isNone
      ∧ actor.role ≠ Role.admin) := by
    rintro ⟨hnone, -⟩
    rw [Option.isNone_iff_eq_none] at hnone
    rw [hnone] at hbsome
    simp at hbsome
  obtain ⟨rv, hrvmem, hrv1, hrv2⟩ := hex
  have hrsome : (reviews.find? (fun r =>
      decide (r.user = actor.id) && decide (r.property = pid))).isSome := by
    rw [List.find?_isSome]
    exact ⟨rv, hrvmem, by simp [hrv1, hrv2]⟩
  obtain ⟨rv0, hrv0⟩ := Option.isSome_iff_exists.1 hrsome
  simp only [addReview, hp, hrv0, if_neg hcond]

def c10Review : Review :=
  { id := 3, property := 1, user := 6, booking := 2, rating := 4,
    comment := "nice" }

def c10SecondBooking : Booking :=
  { c9Completed with
    id := 15
    startDate := 5000
    endDate := 6000
    checkIn := some 5000
    checkOut := some 6000 }

/-- Witness for C10: a user with two distinct completed bookings and an
existing review referencing the first booking is rejected when referencing
the second booking, although no review exists for that (booking, user)
pair. -/
theorem review_uniqueness_per_user_property_witness :
    (([c9Prop].find? (fun p => decide (p.id = 1))).isSome = true
      ∧ (∃ b ∈ [c9Completed, c10SecondBooking],
          completedBookingQuery c9User.id 1 b = true)
      ∧ (∃ rv ∈ [c10Review], rv.user = c9User.id ∧ rv.property = 1)
      ∧ ∀ rv ∈ [c10Review], ¬(rv.booking = 15 ∧ rv.user = c9User.id))
    ∧ addReview [c9Prop] [c9Completed, c10SecondBooking] [c10Review] c9User
        1 15 5 "second stay" 9
        = Resp.error 400 "User has already reviewed this property" :=
  ⟨⟨by decide, by decide, by decide, by decide⟩,
    review_uniqueness_per_user_property [c9Prop]
      [c9Completed, c10SecondBooking] [c10Review] c9User 1 15 5
      "second stay" 9 (by decide) (by decide) (by decide) (by decide)⟩

end PropertyApi
